import Mathlib

/-!
Verification development for the Aviator predictor core: the classification
engine (`analyzeHistory`) and the input validator (`validateAndParseInput`),
embedded shallowly from the TypeScript source. History entries are modelled
as rationals (the source's numbers are decimal literals and parsed decimal
strings, all exactly representable).
-/

set_option autoImplicit false

/-- The category enumeration from types.ts. -/
inductive PredictionCategory where
  | BREAKOUT
  | COOLDOWN
  | STABLE
  | LOW
  | NONE
  deriving DecidableEq, Repr

/-- Display metadata bound to a category (the fields of `PREDICTION_DETAILS`). -/
structure PredictionProfile where
  range : String
  label : String
  colorClass : String
  textColorClass : String
  borderColorClass : String
  deriving DecidableEq, Repr

/-- The result type from types.ts: a category paired with its profile fields. -/
structure PredictionResult where
  category : PredictionCategory
  range : String
  label : String
  colorClass : String
  textColorClass : String
  borderColorClass : String
  deriving DecidableEq, Repr

/-- The rule constants from constants.ts (`PREDICTION_RULES`). -/
structure PredictionRules where
  BREAKOUT_THRESHOLD_COUNT_LT_2X : Nat
  BREAKOUT_THRESHOLD_COUNT_LTE_1_2X : Nat
  COOLDOWN_THRESHOLD_GT_5X : ℚ
  STABLE_LOWER_BOUND : ℚ
  STABLE_UPPER_BOUND : ℚ
  STABLE_HISTORY_COUNT : Nat

def PREDICTION_RULES : PredictionRules where
  BREAKOUT_THRESHOLD_COUNT_LT_2X := 5
  BREAKOUT_THRESHOLD_COUNT_LTE_1_2X := 2
  COOLDOWN_THRESHOLD_GT_5X := 5
  STABLE_LOWER_BOUND := 2
  STABLE_UPPER_BOUND := 4
  STABLE_HISTORY_COUNT := 3

/-- The immutable per-category metadata table from constants.ts. -/
def PREDICTION_DETAILS : PredictionCategory → PredictionProfile
  | PredictionCategory.BREAKOUT =>
    { range := "3.00x – 8.00x", label := "Breakout Likely!",
      colorClass := "bg-green-800/40", textColorClass := "text-green-300",
      borderColorClass := "border-green-500" }
  | PredictionCategory.COOLDOWN =>
    { range := "1.10x – 2.00x", label := "Cooldown Period",
      colorClass := "bg-red-800/40", textColorClass := "text-red-300",
      borderColorClass := "border-red-500" }
  | PredictionCategory.STABLE =>
    { range := "2.00x – 4.00x", label := "Stable Pattern",
      colorClass := "bg-blue-800/40", textColorClass := "text-blue-300",
      borderColorClass := "border-blue-500" }
  | PredictionCategory.LOW =>
    { range := "1.10x – 1.80x", label := "Low Multiplier Expected",
      colorClass := "bg-yellow-800/40", textColorClass := "text-yellow-300",
      borderColorClass := "border-yellow-500" }
  | PredictionCategory.NONE =>
    { range := "N/A", label := "Enter history to predict",
      colorClass := "bg-slate-700", textColorClass := "text-slate-300",
      borderColorClass := "border-slate-600" }

/-- `{ category: c, ...PREDICTION_DETAILS[c] }` — the spread the source performs
at every return site of `analyzeHistory`. -/
def mkResult (c : PredictionCategory) : PredictionResult :=
  let d := PREDICTION_DETAILS c
  { category := c, range := d.range, label := d.label, colorClass := d.colorClass,
    textColorClass := d.textColorClass, borderColorClass := d.borderColorClass }

/-- `history[history.length - 1]` (defined whenever the history is nonempty;
the default is irrelevant on the guarded paths). -/
def lastValueOf (history : List ℚ) : ℚ :=
  history.getD (history.length - 1) 0

/-- `history.filter(val => val < 2).length`. -/
def countLessThan2x (history : List ℚ) : Nat :=
  (history.filter (fun val => decide (val < 2))).length

/-- `history.filter(val => val <= 1.20).length`; `mkRat 6 5` is the exact
value of the literal `1.20`. -/
def countLessThanOrEqualTo1_20x (history : List ℚ) : Nat :=
  (history.filter (fun val => decide (val ≤ mkRat 6 5))).length

/-- `history.slice(-STABLE_HISTORY_COUNT)`: the suffix of (at most) the last
`STABLE_HISTORY_COUNT` entries. -/
def lastNValuesForStableRule (history : List ℚ) : List ℚ :=
  history.drop (history.length - PREDICTION_RULES.STABLE_HISTORY_COUNT)

/-- `lastNValuesForStableRule.every(val => LOWER <= val && val <= UPPER)`. -/
def areLastNStable (history : List ℚ) : Bool :=
  (lastNValuesForStableRule history).all
    (fun val => decide (PREDICTION_RULES.STABLE_LOWER_BOUND ≤ val) &&
                decide (val ≤ PREDICTION_RULES.STABLE_UPPER_BOUND))

/-- The classifier `analyzeHistory` from services/predictionService.ts.
The source's early returns become an if-chain; a guard `if (A) { if (B) return X }`
falling through to the next rule becomes the single condition `A ∧ B`. -/
def analyzeHistory (history : List ℚ) : PredictionResult :=
  if history.length < 2 then
    mkResult PredictionCategory.LOW
  else if lastValueOf history > PREDICTION_RULES.COOLDOWN_THRESHOLD_GT_5X then
    mkResult PredictionCategory.COOLDOWN
  else if PREDICTION_RULES.BREAKOUT_THRESHOLD_COUNT_LT_2X ≤ history.length
      ∧ PREDICTION_RULES.BREAKOUT_THRESHOLD_COUNT_LT_2X ≤ countLessThan2x history
      ∧ PREDICTION_RULES.BREAKOUT_THRESHOLD_COUNT_LTE_1_2X ≤ countLessThanOrEqualTo1_20x history then
    mkResult PredictionCategory.BREAKOUT
  else if PREDICTION_RULES.STABLE_HISTORY_COUNT ≤ history.length
      ∧ (lastNValuesForStableRule history).length = PREDICTION_RULES.STABLE_HISTORY_COUNT
      ∧ areLastNStable history = true then
    mkResult PredictionCategory.STABLE
  else
    mkResult PredictionCategory.LOW

/-- `classify` is the spec's name for the engine's entry point. -/
def classify (history : List ℚ) : PredictionResult :=
  analyzeHistory history

/-! ### Input validator (`validateAndParseInput` from App.tsx) -/

/-- The validator's typed failure reasons, one per `setError` site. -/
inductive ValidationError where
  | WrongCount
  | NotANumber
  | NegativeValue
  | ZeroValue
  deriving DecidableEq, Repr

/-- `input.split(',')` on the underlying characters: the pieces between commas,
including empty pieces for leading/adjacent/trailing commas. -/
def splitCommaAux : List Char → List Char → List (List Char)
  | [], acc => [acc.reverse]
  | c :: cs, acc =>
    if c = ',' then acc.reverse :: splitCommaAux cs []
    else splitCommaAux cs (c :: acc)

def splitComma (cs : List Char) : List (List Char) :=
  splitCommaAux cs []

/-- The whitespace recognised by `String.prototype.trim` (the ASCII forms). -/
def isSpaceChar (c : Char) : Bool :=
  c = ' ' || c = '\t' || c = '\n' || c = '\r'

/-- `val.trim()`. -/
def trimChars (cs : List Char) : List Char :=
  ((cs.dropWhile isSpaceChar).reverse.dropWhile isSpaceChar).reverse

/-- Consume a maximal run of decimal digits: accumulated value, digit count,
remaining characters. -/
def parseDigits : List Char → Nat → Nat → Nat × Nat × List Char
  | [], acc, n => (acc, n, [])
  | c :: cs, acc, n =>
    if c.isDigit then parseDigits cs (10 * acc + (c.toNat - 48)) (n + 1)
    else (acc, n, c :: cs)

/-- The optional exponent suffix accepted by `parseFloat` after an `e`/`E`:
an optional sign and digits; an `e` not followed by digits contributes
nothing (the prefix parse stops before it). -/
def parseExponent (cs : List Char) : Int :=
  let p : Int × List Char :=
    match cs with
    | '-' :: rest => (-1, rest)
    | '+' :: rest => (1, rest)
    | _ => (1, cs)
  let d := parseDigits p.2 0 0
  if d.2.1 = 0 then 0 else p.1 * (d.1 : Int)

/-- The exact rational value of the decimal `(-1)^neg * m * 10^e`. -/
def scientificToRat (neg : Bool) (m : Nat) (e : Int) : ℚ :=
  let sm : Int := if neg then -(m : Int) else (m : Int)
  if 0 ≤ e then mkRat (sm * (10 : Int) ^ e.toNat) 1
  else mkRat sm ((10 : Nat) ^ (-e).toNat)

/-- Model of JavaScript `parseFloat` on an already-trimmed piece: the longest
valid prefix consisting of an optional sign, a decimal mantissa with at least
one digit, and an optional exponent, is read as an exact rational; trailing
characters are ignored. `none` models the `NaN` result when no digit can be
read. (The `Infinity` family has no rational value and is not modelled.) -/
def parseFloat (cs : List Char) : Option ℚ :=
  let s : Bool × List Char :=
    match cs with
    | '-' :: rest => (true, rest)
    | '+' :: rest => (false, rest)
    | _ => (false, cs)
  let ipart := parseDigits s.2 0 0
  let fpart : Nat × Nat × List Char :=
    match ipart.2.2 with
    | '.' :: rest => parseDigits rest 0 0
    | _ => (0, 0, ipart.2.2)
  if ipart.2.1 + fpart.2.1 = 0 then
    none
  else
    let e : Int :=
      match fpart.2.2 with
      | 'e' :: rest => parseExponent rest
      | 'E' :: rest => parseExponent rest
      | _ => 0
    some (scientificToRat s.1 (ipart.1 * 10 ^ fpart.2.1 + fpart.1) (e - (fpart.2.1 : Int)))

/-- `input.split(',').map(val => val.trim()).filter(val => val !== '')` —
the cleaned pieces the validator works on. -/
def cleanedValues (input : String) : List (List Char) :=
  ((splitComma input.data).map trimChars).filter (fun val => !val.isEmpty)

/-- The input validator from App.tsx. The `setError`/`null` protocol becomes
`Except`: `Except.error` carries the typed reason of the message set, and
`Except.ok` the parsed numbers handed on to classification. -/
def validateAndParseInput (input : String) (selectedHistoryLength : Nat) :
    Except ValidationError (List ℚ) :=
  let values := cleanedValues input
  if values.length ≠ selectedHistoryLength then
    Except.error ValidationError.WrongCount
  else
    let numbers := values.map parseFloat
    if numbers.any (fun num => num.isNone) then
      Except.error ValidationError.NotANumber
    else
      let nums := numbers.reduceOption
      if nums.any (fun num => decide (num < 0)) then
        Except.error ValidationError.NegativeValue
      else if nums.any (fun num => decide (num = 0)) then
        Except.error ValidationError.ZeroValue
      else
        Except.ok nums

example :
    (analyzeHistory [1, mkRat 11 10, mkRat 23 20, mkRat 59 50, 6]).category =
      PredictionCategory.COOLDOWN := by
  decide

example :
    (analyzeHistory [1, mkRat 11 10, mkRat 23 20, mkRat 59 50, mkRat 3 2]).category =
      PredictionCategory.BREAKOUT := by
  decide

example :
    (analyzeHistory [5, mkRat 5 2, 3, mkRat 7 2]).category = PredictionCategory.STABLE := by
  decide

example : (analyzeHistory [1, 1]).category = PredictionCategory.LOW := by
  decide

example : (analyzeHistory [6]).category = PredictionCategory.LOW := by
  decide

example : parseFloat "1.0".data = some 1 := by decide

example : parseFloat "1.5e2".data = some 150 := by decide

example : parseFloat "3abc".data = some 3 := by decide

example : parseFloat "abc".data = none := by decide

example : validateAndParseInput "1.0, , 2.0," 2 = Except.ok [1, 2] := by rfl

example : validateAndParseInput "1, 2, 3" 2 = Except.error ValidationError.WrongCount := by rfl

example : validateAndParseInput "1, abc" 2 = Except.error ValidationError.NotANumber := by rfl

example : validateAndParseInput "-1, 0" 2 = Except.error ValidationError.NegativeValue := by rfl

example : validateAndParseInput "1, 0" 2 = Except.error ValidationError.ZeroValue := by rfl

/-! ### Helper lemmas -/

theorem mkResult_category (c : PredictionCategory) : (mkResult c).category = c := rfl

/-- `every(2 ≤ val ≤ 4)` over the stable suffix, as a proposition. -/
theorem areLastNStable_iff (history : List ℚ) :
    areLastNStable history = true ↔
      ∀ val ∈ lastNValuesForStableRule history, 2 ≤ val ∧ val ≤ 4 := by
  simp [areLastNStable, PREDICTION_RULES, List.all_eq_true]

/-- Once the history has at least 3 entries, the stable suffix has exactly 3. -/
theorem lastNValues_length (history : List ℚ) (h : 3 ≤ history.length) :
    (lastNValuesForStableRule history).length = PREDICTION_RULES.STABLE_HISTORY_COUNT := by
  simp only [lastNValuesForStableRule, PREDICTION_RULES, List.length_drop]
  omega

theorem countLessThan2x_le_length (history : List ℚ) :
    countLessThan2x history ≤ history.length :=
  List.length_filter_le _ _

/-! ### Claim theorems -/

/-- C1: for every history of length at least 2, the classifier returns a result
whose category is one of BREAKOUT, COOLDOWN, STABLE, LOW — never NONE; being a
total function of its input, it has no error outcome. -/
theorem classify_total_never_none (history : List ℚ) (_hlen : 2 ≤ history.length) :
    ((classify history).category = PredictionCategory.BREAKOUT
      ∨ (classify history).category = PredictionCategory.COOLDOWN
      ∨ (classify history).category = PredictionCategory.STABLE
      ∨ (classify history).category = PredictionCategory.LOW)
    ∧ (classify history).category ≠ PredictionCategory.NONE := by
  unfold classify analyzeHistory
  split
  · simp [mkResult_category]
  split
  · simp [mkResult_category]
  split
  · simp [mkResult_category]
  split
  · simp [mkResult_category]
  · simp [mkResult_category]

theorem classify_total_never_none_witness :
    2 ≤ ([1, 1] : List ℚ).length
    ∧ (((classify [1, 1]).category = PredictionCategory.BREAKOUT
        ∨ (classify [1, 1]).category = PredictionCategory.COOLDOWN
        ∨ (classify [1, 1]).category = PredictionCategory.STABLE
        ∨ (classify [1, 1]).category = PredictionCategory.LOW)
      ∧ (classify [1, 1]).category ≠ PredictionCategory.NONE) :=
  ⟨by decide, classify_total_never_none [1, 1] (by decide)⟩

/-- C2: whenever the history has at least 2 entries and its last entry exceeds
5.0, the classifier returns COOLDOWN — this rule is checked first, so it wins
over any other rule that might also match. -/
theorem classify_cooldown_priority (history : List ℚ) (hlen : 2 ≤ history.length)
    (hlast : 5 < lastValueOf history) :
    (classify history).category = PredictionCategory.COOLDOWN := by
  have h1 : ¬ history.length < 2 := by omega
  have h2 : lastValueOf history > PREDICTION_RULES.COOLDOWN_THRESHOLD_GT_5X := hlast
  unfold classify analyzeHistory
  rw [if_neg h1, if_pos h2]
  exact mkResult_category _

theorem classify_cooldown_priority_witness :
    2 ≤ ([1, mkRat 11 10, mkRat 23 20, mkRat 59 50, 6] : List ℚ).length
    ∧ 5 < lastValueOf [1, mkRat 11 10, mkRat 23 20, mkRat 59 50, 6]
    ∧ (classify [1, mkRat 11 10, mkRat 23 20, mkRat 59 50, 6]).category =
        PredictionCategory.COOLDOWN :=
  ⟨by decide, by decide,
    classify_cooldown_priority [1, mkRat 11 10, mkRat 23 20, mkRat 59 50, 6]
      (by decide) (by decide)⟩

/-- C3: when the last entry is at most 5.0 (so COOLDOWN does not fire), the
history has at least 5 entries, at least 5 entries of the whole history are
below 2.0 and at least 2 are at most 1.20, the classifier returns BREAKOUT. -/
theorem classify_breakout (history : List ℚ) (_hlen2 : 2 ≤ history.length)
    (hlast : lastValueOf history ≤ 5)
    (hlen : 5 ≤ history.length)
    (hc1 : 5 ≤ countLessThan2x history)
    (hc2 : 2 ≤ countLessThanOrEqualTo1_20x history) :
    (classify history).category = PredictionCategory.BREAKOUT := by
  have h1 : ¬ history.length < 2 := by omega
  have h2 : ¬ lastValueOf history > PREDICTION_RULES.COOLDOWN_THRESHOLD_GT_5X :=
    not_lt.mpr hlast
  have h3 : PREDICTION_RULES.BREAKOUT_THRESHOLD_COUNT_LT_2X ≤ history.length
      ∧ PREDICTION_RULES.BREAKOUT_THRESHOLD_COUNT_LT_2X ≤ countLessThan2x history
      ∧ PREDICTION_RULES.BREAKOUT_THRESHOLD_COUNT_LTE_1_2X ≤ countLessThanOrEqualTo1_20x history :=
    ⟨hlen, hc1, hc2⟩
  unfold classify analyzeHistory
  rw [if_neg h1, if_neg h2, if_pos h3]
  exact mkResult_category _

theorem classify_breakout_witness :
    2 ≤ ([1, mkRat 11 10, mkRat 23 20, mkRat 59 50, mkRat 3 2] : List ℚ).length
    ∧ lastValueOf [1, mkRat 11 10, mkRat 23 20, mkRat 59 50, mkRat 3 2] ≤ 5
    ∧ 5 ≤ ([1, mkRat 11 10, mkRat 23 20, mkRat 59 50, mkRat 3 2] : List ℚ).length
    ∧ 5 ≤ countLessThan2x [1, mkRat 11 10, mkRat 23 20, mkRat 59 50, mkRat 3 2]
    ∧ 2 ≤ countLessThanOrEqualTo1_20x [1, mkRat 11 10, mkRat 23 20, mkRat 59 50, mkRat 3 2]
    ∧ (classify [1, mkRat 11 10, mkRat 23 20, mkRat 59 50, mkRat 3 2]).category =
        PredictionCategory.BREAKOUT :=
  ⟨by decide, by decide, by decide, by decide, by decide,
    classify_breakout [1, mkRat 11 10, mkRat 23 20, mkRat 59 50, mkRat 3 2]
      (by decide) (by decide) (by decide) (by decide) (by decide)⟩

/-- C4: when the history has at least 3 entries, the last entry is at most 5.0,
the BREAKOUT conditions do not all hold, and each of the last 3 entries lies in
[2.0, 4.0], the classifier returns STABLE — only the 3-entry suffix matters,
whatever the earlier entries look like. -/
theorem classify_stable (history : List ℚ) (hlen : 3 ≤ history.length)
    (hlast : lastValueOf history ≤ 5)
    (hnb : ¬ (5 ≤ history.length ∧ 5 ≤ countLessThan2x history
        ∧ 2 ≤ countLessThanOrEqualTo1_20x history))
    (hst : ∀ val ∈ lastNValuesForStableRule history, 2 ≤ val ∧ val ≤ 4) :
    (classify history).category = PredictionCategory.STABLE := by
  have h1 : ¬ history.length < 2 := by omega
  have h2 : ¬ lastValueOf history > PREDICTION_RULES.COOLDOWN_THRESHOLD_GT_5X :=
    not_lt.mpr hlast
  have h3 : ¬ (PREDICTION_RULES.BREAKOUT_THRESHOLD_COUNT_LT_2X ≤ history.length
      ∧ PREDICTION_RULES.BREAKOUT_THRESHOLD_COUNT_LT_2X ≤ countLessThan2x history
      ∧ PREDICTION_RULES.BREAKOUT_THRESHOLD_COUNT_LTE_1_2X ≤ countLessThanOrEqualTo1_20x history) :=
    hnb
  have h4 : PREDICTION_RULES.STABLE_HISTORY_COUNT ≤ history.length
      ∧ (lastNValuesForStableRule history).length = PREDICTION_RULES.STABLE_HISTORY_COUNT
      ∧ areLastNStable history = true :=
    ⟨hlen, lastNValues_length history hlen, (areLastNStable_iff history).mpr hst⟩
  unfold classify analyzeHistory
  rw [if_neg h1, if_neg h2, if_neg h3, if_pos h4]
  exact mkResult_category _

theorem classify_stable_witness :
    3 ≤ ([5, mkRat 5 2, 3, mkRat 7 2] : List ℚ).length
    ∧ lastValueOf [5, mkRat 5 2, 3, mkRat 7 2] ≤ 5
    ∧ ¬ (5 ≤ ([5, mkRat 5 2, 3, mkRat 7 2] : List ℚ).length
        ∧ 5 ≤ countLessThan2x [5, mkRat 5 2, 3, mkRat 7 2]
        ∧ 2 ≤ countLessThanOrEqualTo1_20x [5, mkRat 5 2, 3, mkRat 7 2])
    ∧ (∀ val ∈ lastNValuesForStableRule [5, mkRat 5 2, 3, mkRat 7 2], 2 ≤ val ∧ val ≤ 4)
    ∧ (classify [5, mkRat 5 2, 3, mkRat 7 2]).category = PredictionCategory.STABLE :=
  ⟨by decide, by decide, by decide, by decide,
    classify_stable [5, mkRat 5 2, 3, mkRat 7 2]
      (by decide) (by decide) (by decide) (by decide)⟩

/-- C5: when none of the COOLDOWN, BREAKOUT and STABLE conditions fires on a
history of length at least 2, the classifier falls through to LOW. -/
theorem classify_low_fallback (history : List ℚ) (hlen : 2 ≤ history.length)
    (hcool : ¬ 5 < lastValueOf history)
    (hbreak : ¬ (5 ≤ history.length ∧ 5 ≤ countLessThan2x history
        ∧ 2 ≤ countLessThanOrEqualTo1_20x history))
    (hstab : ¬ (3 ≤ history.length
        ∧ ∀ val ∈ lastNValuesForStableRule history, 2 ≤ val ∧ val ≤ 4)) :
    (classify history).category = PredictionCategory.LOW := by
  have h1 : ¬ history.length < 2 := by omega
  have h2 : ¬ lastValueOf history > PREDICTION_RULES.COOLDOWN_THRESHOLD_GT_5X := hcool
  have h3 : ¬ (PREDICTION_RULES.BREAKOUT_THRESHOLD_COUNT_LT_2X ≤ history.length
      ∧ PREDICTION_RULES.BREAKOUT_THRESHOLD_COUNT_LT_2X ≤ countLessThan2x history
      ∧ PREDICTION_RULES.BREAKOUT_THRESHOLD_COUNT_LTE_1_2X ≤ countLessThanOrEqualTo1_20x history) :=
    hbreak
  have h4 : ¬ (PREDICTION_RULES.STABLE_HISTORY_COUNT ≤ history.length
      ∧ (lastNValuesForStableRule history).length = PREDICTION_RULES.STABLE_HISTORY_COUNT
      ∧ areLastNStable history = true) := by
    rintro ⟨hl, _, hall⟩
    exact hstab ⟨hl, (areLastNStable_iff history).mp hall⟩
  unfold classify analyzeHistory
  rw [if_neg h1, if_neg h2, if_neg h3, if_neg h4]
  exact mkResult_category _

theorem classify_low_fallback_witness :
    2 ≤ ([1, 1] : List ℚ).length
    ∧ ¬ 5 < lastValueOf [1, 1]
    ∧ ¬ (5 ≤ ([1, 1] : List ℚ).length ∧ 5 ≤ countLessThan2x [1, 1]
        ∧ 2 ≤ countLessThanOrEqualTo1_20x [1, 1])
    ∧ ¬ (3 ≤ ([1, 1] : List ℚ).length
        ∧ ∀ val ∈ lastNValuesForStableRule [1, 1], 2 ≤ val ∧ val ≤ 4)
    ∧ (classify [1, 1]).category = PredictionCategory.LOW :=
  ⟨by decide, by decide, by decide, by decide,
    classify_low_fallback [1, 1] (by decide) (by decide) (by decide) (by decide)⟩

/-- C9: `analyzeHistory` is total also below its documented precondition: any
history of length 0 or 1 takes the early length-guard return and yields LOW —
in particular `[6.0]` yields LOW, because the guard runs before the COOLDOWN
check. -/
theorem analyzeHistory_short_low (history : List ℚ) (h : history.length < 2) :
    analyzeHistory history = mkResult PredictionCategory.LOW := by
  unfold analyzeHistory
  rw [if_pos h]

theorem analyzeHistory_short_low_witness :
    ([6] : List ℚ).length < 2
    ∧ analyzeHistory [6] = mkResult PredictionCategory.LOW
    ∧ (analyzeHistory [6]).category = PredictionCategory.LOW :=
  ⟨by decide, analyzeHistory_short_low [6] (by decide),
    by rw [analyzeHistory_short_low [6] (by decide)]; exact mkResult_category _⟩

/-- The C10 comparison definition, following the claim's words: `analyzeHistory`
with the explicit BREAKOUT history-length guard dropped, so that BREAKOUT is
decided purely from the two counts over the whole history. -/
def analyzeHistoryNoLengthGuard (history : List ℚ) : PredictionResult :=
  if history.length < 2 then
    mkResult PredictionCategory.LOW
  else if lastValueOf history > PREDICTION_RULES.COOLDOWN_THRESHOLD_GT_5X then
    mkResult PredictionCategory.COOLDOWN
  else if PREDICTION_RULES.BREAKOUT_THRESHOLD_COUNT_LT_2X ≤ countLessThan2x history
      ∧ PREDICTION_RULES.BREAKOUT_THRESHOLD_COUNT_LTE_1_2X ≤ countLessThanOrEqualTo1_20x history then
    mkResult PredictionCategory.BREAKOUT
  else if PREDICTION_RULES.STABLE_HISTORY_COUNT ≤ history.length
      ∧ (lastNValuesForStableRule history).length = PREDICTION_RULES.STABLE_HISTORY_COUNT
      ∧ areLastNStable history = true then
    mkResult PredictionCategory.STABLE
  else
    mkResult PredictionCategory.LOW

/-- C10: the BREAKOUT rule's explicit length guard is redundant — at least 5
entries below 2.0 already force the history length to be at least 5, so the
variant without the guard agrees with `analyzeHistory` on every history. -/
theorem analyzeHistoryNoLengthGuard_eq (history : List ℚ) :
    analyzeHistoryNoLengthGuard history = analyzeHistory history := by
  by_cases hA : history.length < 2
  · simp [analyzeHistoryNoLengthGuard, analyzeHistory, hA]
  by_cases hB : lastValueOf history > PREDICTION_RULES.COOLDOWN_THRESHOLD_GT_5X
  · simp [analyzeHistoryNoLengthGuard, analyzeHistory, hA, hB]
  by_cases hC : PREDICTION_RULES.BREAKOUT_THRESHOLD_COUNT_LT_2X ≤ countLessThan2x history
      ∧ PREDICTION_RULES.BREAKOUT_THRESHOLD_COUNT_LTE_1_2X ≤ countLessThanOrEqualTo1_20x history
  · have hlen : PREDICTION_RULES.BREAKOUT_THRESHOLD_COUNT_LT_2X ≤ history.length :=
      le_trans hC.1 (countLessThan2x_le_length history)
    simp [analyzeHistoryNoLengthGuard, analyzeHistory, hA, hB, hC.1, hC.2, hlen]
  · have hC3 : ¬ (PREDICTION_RULES.BREAKOUT_THRESHOLD_COUNT_LT_2X ≤ history.length
        ∧ PREDICTION_RULES.BREAKOUT_THRESHOLD_COUNT_LT_2X ≤ countLessThan2x history
        ∧ PREDICTION_RULES.BREAKOUT_THRESHOLD_COUNT_LTE_1_2X ≤ countLessThanOrEqualTo1_20x history) := by
      rintro ⟨_, h1, h2⟩
      exact hC ⟨h1, h2⟩
    simp [analyzeHistoryNoLengthGuard, analyzeHistory, hA, hB, hC, hC3]

theorem eq_false_of_not_eq_true {b : Bool} (h : ¬ b = true) : b = false := by
  cases b
  · rfl
  · exact absurd rfl h

/-- If the NaN check passes, every piece parsed. -/
theorem any_isNone_false {α : Type} (l : List (Option α))
    (h : l.any (fun o => o.isNone) = false) :
    ∀ o ∈ l, o.isSome = true := by
  intro o ho
  cases o with
  | some a => rfl
  | none =>
    have ht : l.any (fun o => o.isNone) = true := List.any_eq_true.mpr ⟨none, ho, rfl⟩
    rw [h] at ht
    cases ht

/-- A list of parse results with no `none` collapses to the in-order list of
parsed values. -/
theorem reduceOption_eq_map_getD {α : Type} (d : α) (l : List (Option α))
    (h : ∀ o ∈ l, o.isSome = true) :
    l.reduceOption = l.map (fun o => o.getD d) := by
  induction l with
  | nil => rfl
  | cons o t ih =>
    obtain ⟨a, rfl⟩ := Option.isSome_iff_exists.mp (h o (List.mem_cons_self o t))
    simp only [List.reduceOption_cons_of_some, List.map_cons, Option.getD_some]
    exact congrArg (a :: ·) (ih fun x hx => h x (List.mem_cons_of_mem _ hx))

/-- C6: the validator splits the raw string on commas, trims each piece and
drops the empty pieces — so repeated or trailing commas create no spurious
entries — and on success returns exactly the in-order parses of those cleaned
pieces; in particular `"1.0, , 2.0,"` with required length 2 succeeds with
`[1.0, 2.0]`. -/
theorem validateAndParseInput_split_trim_order :
    validateAndParseInput "1.0, , 2.0," 2 = Except.ok [1, 2]
    ∧ ∀ (input : String) (N : Nat) (l : List ℚ),
      validateAndParseInput input N = Except.ok l →
      (∀ v ∈ cleanedValues input, (parseFloat v).isSome = true)
      ∧ l = (cleanedValues input).map (fun v => (parseFloat v).getD 0) := by
  constructor
  · rfl
  · intro input N l h
    simp only [validateAndParseInput] at h
    split at h
    next => simp at h
    next hcount =>
      split at h
      next => simp at h
      next hnan =>
        split at h
        next => simp at h
        next hneg =>
          split at h
          next => simp at h
          next hzero =>
            injection h with h
            subst h
            have hsome := any_isNone_false _ (eq_false_of_not_eq_true hnan)
            constructor
            · intro v hv
              exact hsome (parseFloat v) (List.mem_map_of_mem _ hv)
            · rw [reduceOption_eq_map_getD 0 _ hsome, List.map_map]
              rfl

theorem validateAndParseInput_split_trim_order_witness :
    (∀ v ∈ cleanedValues "1.0, , 2.0,", (parseFloat v).isSome = true)
    ∧ ([1, 2] : List ℚ) =
        (cleanedValues "1.0, , 2.0,").map (fun v => (parseFloat v).getD 0) :=
  validateAndParseInput_split_trim_order.2 "1.0, , 2.0," 2 [1, 2] (by rfl)

/-- C7: the validator's failure checks fire in the fixed order wrong count,
then unparseable piece, then negative value, then zero value; an input meeting
several conditions reports exactly the first, and any failure yields an
`Except.error`, so no parsed history (and hence no classification input) is
produced. -/
theorem validateAndParseInput_error_priority (input : String) (N : Nat) :
    ((cleanedValues input).length ≠ N →
      validateAndParseInput input N = Except.error ValidationError.WrongCount)
    ∧ ((cleanedValues input).length = N →
      ((cleanedValues input).map parseFloat).any (fun num => num.isNone) = true →
      validateAndParseInput input N = Except.error ValidationError.NotANumber)
    ∧ (∀ nums : List ℚ, (cleanedValues input).length = N →
      ((cleanedValues input).map parseFloat).any (fun num => num.isNone) = false →
      ((cleanedValues input).map parseFloat).reduceOption = nums →
      (∃ x ∈ nums, x < 0) →
      validateAndParseInput input N = Except.error ValidationError.NegativeValue)
    ∧ (∀ nums : List ℚ, (cleanedValues input).length = N →
      ((cleanedValues input).map parseFloat).any (fun num => num.isNone) = false →
      ((cleanedValues input).map parseFloat).reduceOption = nums →
      (∀ x ∈ nums, ¬ x < 0) →
      (∃ x ∈ nums, x = 0) →
      validateAndParseInput input N = Except.error ValidationError.ZeroValue) := by
  refine ⟨?_, ?_, ?_, ?_⟩
  · intro hc
    simp only [validateAndParseInput]
    rw [if_pos hc]
  · intro hc hnan
    simp only [validateAndParseInput]
    rw [if_neg (fun hne => hne hc), if_pos hnan]
  · intro nums hc hnanf hred hex
    have hne2 : ¬ ((cleanedValues input).map parseFloat).any (fun num => num.isNone) = true := by
      simp [hnanf]
    have hneg : (((cleanedValues input).map parseFloat).reduceOption.any
        (fun num => decide (num < 0))) = true := by
      rw [hred, List.any_eq_true]
      obtain ⟨x, hx, hx0⟩ := hex
      exact ⟨x, hx, decide_eq_true hx0⟩
    simp only [validateAndParseInput]
    rw [if_neg (fun hne => hne hc), if_neg hne2, if_pos hneg]
  · intro nums hc hnanf hred hnone hex
    have hne2 : ¬ ((cleanedValues input).map parseFloat).any (fun num => num.isNone) = true := by
      simp [hnanf]
    have hnegf : (((cleanedValues input).map parseFloat).reduceOption.any
        (fun num => decide (num < 0))) = false := by
      rw [hred, List.any_eq_false]
      intro x hx
      simpa using hnone x hx
    have hne3 : ¬ (((cleanedValues input).map parseFloat).reduceOption.any
        (fun num => decide (num < 0))) = true := by
      simp [hnegf]
    have hzero : (((cleanedValues input).map parseFloat).reduceOption.any
        (fun num => decide (num = 0))) = true := by
      rw [hred, List.any_eq_true]
      obtain ⟨x, hx, hx0⟩ := hex
      exact ⟨x, hx, decide_eq_true hx0⟩
    simp only [validateAndParseInput]
    rw [if_neg (fun hne => hne hc), if_neg hne2, if_neg hne3, if_pos hzero]

theorem validateAndParseInput_error_priority_witness :
    validateAndParseInput "-1, 0" 2 = Except.error ValidationError.NegativeValue :=
  (validateAndParseInput_error_priority "-1, 0" 2).2.2.1 [-1, 0]
    (by rfl) (by rfl) (by rfl) ⟨-1, by decide, by decide⟩

/-- C8: whenever validation succeeds, the returned history has exactly the
required length and every entry is a parsed number strictly greater than 0 —
the invariant the classifier assumes. -/
theorem validateAndParseInput_ok_invariant (input : String) (N : Nat) (l : List ℚ)
    (h : validateAndParseInput input N = Except.ok l) :
    l.length = N ∧ ∀ x ∈ l, 0 < x := by
  simp only [validateAndParseInput] at h
  split at h
  next => simp at h
  next hcount =>
    split at h
    next => simp at h
    next hnan =>
      split at h
      next => simp at h
      next hneg =>
        split at h
        next => simp at h
        next hzero =>
          injection h with h
          subst h
          have hsome := any_isNone_false _ (eq_false_of_not_eq_true hnan)
          have hnegf := eq_false_of_not_eq_true hneg
          have hzerof := eq_false_of_not_eq_true hzero
          constructor
          · rw [reduceOption_eq_map_getD 0 _ hsome, List.length_map, List.length_map]
            exact not_not.mp hcount
          · intro x hx
            have h1 : ¬ x < 0 := by simpa using List.any_eq_false.mp hnegf x hx
            have h2 : ¬ x = 0 := by simpa using List.any_eq_false.mp hzerof x hx
            exact lt_of_le_of_ne (not_lt.mp h1) (Ne.symm h2)

theorem validateAndParseInput_ok_invariant_witness :
    ([1, 2] : List ℚ).length = 2 ∧ ∀ x ∈ ([1, 2] : List ℚ), 0 < x :=
  validateAndParseInput_ok_invariant "1.0, , 2.0," 2 [1, 2] (by rfl)
